import Mathlib

/-!
Shallow embedding of the `thermoprint` crate (ESC/POS receipt builder).

Conventions of the embedding:
* Rust `String`/`&str` values are modelled as `List Char` (Rust's
  `chars().count()` is `List.length`).
* Bytes (`u8`) and byte buffers (`Vec<u8>`) are modelled as `Nat` and
  `List Nat`; where Rust truncates on an integer cast the model reduces
  modulo the corresponding power of two.
* `rust_decimal::Decimal` is exact decimal arithmetic, a subset of the
  rationals; amounts are modelled as `ℚ`.  `Decimal::round` is banker's
  rounding (midpoint-to-even), modelled by `roundBankers`.
* Fallible code returns `Option`; the `assert_eq!` precondition of
  `dither_rgba` is modelled by returning `none` on violation.
-/

namespace Thermoprint

/-- Shorthand for string literals as `List Char`. -/
def strL (s : String) : List Char := s.toList

/-! ## `encoding.rs` — CP858 text encoding and layout helpers -/

/-- `cp858_byte` from `encoding.rs`: map a single Unicode scalar to its CP858
byte; unmapped characters fall back to their low byte (`other as u8`). -/
def cp858_byte (c : Char) : Nat :=
  if c = 'à' then 0x85 else if c = 'â' then 0x83 else if c = 'ä' then 0x84
  else if c = 'é' then 0x82 else if c = 'è' then 0x8A else if c = 'ê' then 0x88
  else if c = 'ë' then 0x89 else if c = 'î' then 0x8C else if c = 'ï' then 0x8B
  else if c = 'ô' then 0x93 else if c = 'ö' then 0x94 else if c = 'ù' then 0x97
  else if c = 'û' then 0x96 else if c = 'ü' then 0x81 else if c = 'ç' then 0x87
  else if c = 'ñ' then 0xA4
  else if c = 'À' then 0xB7 else if c = 'Â' then 0xB6 else if c = 'É' then 0x90
  else if c = 'È' then 0xD4 else if c = 'Ê' then 0xD2 else if c = 'Î' then 0xD7
  else if c = 'Ô' then 0xE4 else if c = 'Ù' then 0xEB else if c = 'Û' then 0xEA
  else if c = 'Ç' then 0x80 else if c = 'Ñ' then 0xA5
  else if c = '€' then 0xD5
  else c.toNat % 256

/-- `encode_cp858` from `encoding.rs`. -/
def encode_cp858 (text : List Char) : List Nat := text.map cp858_byte

/-- `truncate` from `encoding.rs`: truncate to `max_chars` scalar values,
appending `"..."` if truncated; the cut length is a saturating subtraction. -/
def truncate (text : List Char) (max_chars : Nat) : List Char :=
  if text.length ≤ max_chars then text
  else text.take (max_chars - 3) ++ strL "..."

/-- `center` from `encoding.rs`: left-pad only. -/
def center (text : List Char) (width : Nat) : List Char :=
  if width ≤ text.length then text
  else List.replicate ((width - text.length) / 2) ' ' ++ text

/-- `right_align` from `encoding.rs`. -/
def right_align (text : List Char) (width : Nat) : List Char :=
  if width ≤ text.length then text
  else List.replicate (width - text.length) ' ' ++ text

/-- `two_col` from `encoding.rs`: label flush-left, value flush-right,
gap is `width.saturating_sub(l + r)` clamped below by 1. -/
def two_col (left right : List Char) (width : Nat) : List Char :=
  left ++ List.replicate (max (width - (left.length + right.length)) 1) ' ' ++ right

/-! ## UTF-8 byte encoding (Rust `str::as_bytes` / `String::as_bytes`) -/

/-- Standard UTF-8 encoding of one Unicode scalar value. -/
def utf8Char (c : Char) : List Nat :=
  let n := c.toNat
  if n < 0x80 then [n]
  else if n < 0x800 then [0xC0 + n / 64, 0x80 + n % 64]
  else if n < 0x10000 then [0xE0 + n / 4096, 0x80 + n / 64 % 64, 0x80 + n % 64]
  else [0xF0 + n / 262144, 0x80 + n / 4096 % 64, 0x80 + n / 64 % 64, 0x80 + n % 64]

/-- UTF-8 bytes of a string (`as_bytes`). -/
def utf8 (s : List Char) : List Nat := (s.map utf8Char).flatten

/-! ## `commands.rs` — raw ESC/POS command byte sequences -/

namespace commands

/-- `ESC` byte. -/
def ESC : Nat := 0x1B
/-- `GS` byte. -/
def GS : Nat := 0x1D
/-- `LF` byte. -/
def LF : Nat := 0x0A
/-- `FF` byte. -/
def FF : Nat := 0x0C

/-- `init()` — `ESC @`. -/
def init : List Nat := [ESC, 0x40]
/-- `code_page_858()` — `ESC t 19`. -/
def code_page_858 : List Nat := [ESC, 0x74, 19]
/-- `align_left()`. -/
def align_left : List Nat := [ESC, 0x61, 0]
/-- `align_center()`. -/
def align_center : List Nat := [ESC, 0x61, 1]
/-- `align_right()`. -/
def align_right : List Nat := [ESC, 0x61, 2]
/-- `bold_on()`. -/
def bold_on : List Nat := [ESC, 0x45, 1]
/-- `bold_off()`. -/
def bold_off : List Nat := [ESC, 0x45, 0]
/-- `double_height_on()`. -/
def double_height_on : List Nat := [ESC, 0x21, 0x10]
/-- `double_width_on()`. -/
def double_width_on : List Nat := [ESC, 0x21, 0x20]
/-- `double_size_on()`. -/
def double_size_on : List Nat := [ESC, 0x21, 0x30]
/-- `normal_size()`. -/
def normal_size : List Nat := [ESC, 0x21, 0x00]
/-- `underline_off()`. -/
def underline_off : List Nat := [ESC, 0x2D, 0]
/-- `underline_on()`. -/
def underline_on : List Nat := [ESC, 0x2D, 1]
/-- `feed_lines(n)` — `n` is a `u8`. -/
def feed_lines (n : Nat) : List Nat := [ESC, 0x64, n % 256]
/-- `form_feed()`. -/
def form_feed : List Nat := [FF]
/-- `cut_full()` — `GS V 0`. -/
def cut_full : List Nat := [GS, 0x56, 0]
/-- `cut_partial()` — `GS V 66 0`. -/
def cut_partial : List Nat := [GS, 0x56, 66, 0]
/-- `barcode_hri_position(pos)`. -/
def barcode_hri_position (pos : Nat) : List Nat := [GS, 0x48, pos % 256]
/-- `barcode_hri_font(font)`. -/
def barcode_hri_font (font : Nat) : List Nat := [GS, 0x66, font % 256]
/-- `barcode_height(dots)`. -/
def barcode_height (dots : Nat) : List Nat := [GS, 0x68, dots % 256]
/-- `barcode_width(width)`. -/
def barcode_width (width : Nat) : List Nat := [GS, 0x77, width % 256]

/-- `barcode_code128(value)` — `GS k 73 len data`; the length byte is
`value.len() as u8` (UTF-8 byte count truncated to one byte). -/
def barcode_code128 (value : List Char) : List Nat :=
  [GS, 0x6B, 73, (utf8 value).length % 256] ++ utf8 value

/-- `barcode_ean13(value)` — `GS k 2` followed by the value's bytes and a
null terminator; performs no validation of the value. -/
def barcode_ean13 (value : List Char) : List Nat :=
  [GS, 0x6B, 2] ++ utf8 value ++ [0]

/-- `qr_code(data, size)` — four sub-frames: store data (2-byte little-endian
length `len(data)+3` as `u16`), module size, error correction M, print. -/
def qr_code (data : List Char) (size : Nat) : List Nat :=
  let plen := ((utf8 data).length + 3) % 65536
  [GS, 0x28, 0x6B, plen % 256, plen / 256 % 256, 49, 80, 48] ++ utf8 data
    ++ [GS, 0x28, 0x6B, 3, 0, 49, 67, size % 256]
    ++ [GS, 0x28, 0x6B, 3, 0, 49, 69, 49]
    ++ [GS, 0x28, 0x6B, 3, 0, 49, 81, 48]

/-- `cash_drawer_kick()` — dual-pin pulse (pin 2 then pin 5). -/
def cash_drawer_kick : List Nat :=
  [ESC, 0x70, 0, 25, 250, ESC, 0x70, 1, 25, 250]

/-- `raster_image(bytes_per_line, height_px, raster_data)` — `GS v 0` header
(8 bytes, both dimensions little-endian `u16`) plus the packed data. -/
def raster_image (bytes_per_line height_px : Nat) (raster_data : List Nat) : List Nat :=
  [GS, 0x76, 0x30, 0,
   bytes_per_line % 256, bytes_per_line / 256 % 256,
   height_px % 256, height_px / 256 % 256] ++ raster_data

end commands

/-- "Exactly 12 ASCII digits": the documented EAN13 caller precondition. -/
def isEan13Payload (value : List Char) : Bool :=
  value.length == 12 && value.all Char.isDigit

/-! ## `types.rs` — shared domain types -/

/-- `PrintWidth` from `types.rs`. -/
inductive PrintWidth where
  | Mm58
  | Mm80
  | A4
deriving DecidableEq

/-- `PrintWidth::cols`. -/
def PrintWidth.cols : PrintWidth → Nat
  | .Mm58 => 32
  | .Mm80 => 48
  | .A4 => 90

/-- `Align` from `types.rs`. -/
inductive Align where
  | Left
  | Center
  | Right
deriving DecidableEq

/-- `TaxEntry` from `types.rs`; the `Decimal` amount is modelled as `ℚ`. -/
structure TaxEntry where
  label : List Char
  amount : ℚ
  included : Bool

/-! ## `i18n.rs` — localized receipt labels -/

/-- `ReceiptLabels` from `i18n.rs`: 13 display strings per language. -/
structure ReceiptLabels where
  subtotal_ht : List Char
  excl_tax_note : List Char
  discount : List Char
  tax_details : List Char
  tax_included : List Char
  additional_taxes : List Char
  total : List Char
  received : List Char
  change : List Char
  served_by : List Char
  thank_you : List Char
  see_you_at : List Char
  item_discount : List Char

/-- `Language` from `i18n.rs`. -/
inductive Language where
  | Fr
  | En
  | Es
  | Pt
  | Ar
  | Wo
deriving DecidableEq

/-- `LABELS_FR` from `i18n.rs`. -/
def LABELS_FR : ReceiptLabels :=
  ⟨strL "SOUS-TOTAL HT", strL "(Hors TVA)", strL "REMISE",
   strL "DETAIL DES TAXES:", strL "incluse", strL "Taxes additionnelles",
   strL "TOTAL", strL "MONTANT RECU", strL "MONNAIE", strL "Servi par:",
   strL "Merci pour votre confiance!", strL "A bientot chez", strL "Remise:"⟩

/-- `LABELS_EN` from `i18n.rs`. -/
def LABELS_EN : ReceiptLabels :=
  ⟨strL "SUBTOTAL", strL "(Excl. Tax)", strL "DISCOUNT",
   strL "TAX DETAILS:", strL "included", strL "Additional taxes",
   strL "TOTAL", strL "AMOUNT RECEIVED", strL "CHANGE", strL "Served by:",
   strL "Thank you for your purchase!", strL "See you soon at", strL "Discount:"⟩

/-- `LABELS_ES` from `i18n.rs`. -/
def LABELS_ES : ReceiptLabels :=
  ⟨strL "SUBTOTAL", strL "(Sin IVA)", strL "DESCUENTO",
   strL "DETALLE DE IMPUESTOS:", strL "incluido", strL "Impuestos adicionales",
   strL "TOTAL", strL "MONTO RECIBIDO", strL "CAMBIO", strL "Atendido por:",
   strL "Gracias por su compra!", strL "Hasta pronto en", strL "Descuento:"⟩

/-- `LABELS_PT` from `i18n.rs`. -/
def LABELS_PT : ReceiptLabels :=
  ⟨strL "SUBTOTAL", strL "(Sem IVA)", strL "DESCONTO",
   strL "DETALHES DOS IMPOSTOS:", strL "incluido", strL "Impostos adicionais",
   strL "TOTAL", strL "VALOR RECEBIDO", strL "TROCO", strL "Atendido por:",
   strL "Obrigado pela sua compra!", strL "Ate breve em", strL "Desconto:"⟩

/-- `LABELS_AR` from `i18n.rs` (Latin-transliterated). -/
def LABELS_AR : ReceiptLabels :=
  ⟨strL "AL-MAJMOU' AL-FER'I", strL "(Bidoun Dariba)", strL "TAKHFID",
   strL "TAFASIL AD-DARIBA:", strL "moudamana", strL "Daraib idafiya",
   strL "AL-MAJMOU'", strL "AL-MABLAGH AL-MUSTASLAM", strL "AL-BAAQI",
   strL "Khidma min:", strL "Choukran li thiqatikum!", strL "Ila al-liqa' fi",
   strL "Takhfid:"⟩

/-- `LABELS_WO` from `i18n.rs`. -/
def LABELS_WO : ReceiptLabels :=
  ⟨strL "TOLLU NJEG", strL "(Bu Amul Cero)", strL "WANAAGU NJEG",
   strL "CERON YI:", strL "ci biir", strL "Cero yu nyul",
   strL "TOLLU", strL "XAALIS BU JOTNA", strL "CENNGE", strL "Liggeykat bi:",
   strL "Jere jef ci sanu confiance!", strL "Ba beneen yoon ci", strL "Wanaag:"⟩

/-- `Language::labels` from `i18n.rs`: total lookup. -/
def Language.labels : Language → ReceiptLabels
  | .Fr => LABELS_FR
  | .En => LABELS_EN
  | .Es => LABELS_ES
  | .Pt => LABELS_PT
  | .Ar => LABELS_AR
  | .Wo => LABELS_WO

/-! ## Money formatting (`builder.rs`) -/

/-- `rust_decimal`'s default `round()` strategy: round to nearest integer,
midpoint to even (banker's rounding). -/
def roundBankers (q : ℚ) : ℤ :=
  let f := ⌊q⌋
  let r := q - f
  if r < 1 / 2 then f
  else if 1 / 2 < r then f + 1
  else if f % 2 = 0 then f else f + 1

/-- Decimal display of an integer (Rust `{}` formatting). -/
def intChars (z : ℤ) : List Char :=
  if z < 0 then '-' :: Nat.toDigits 10 z.natAbs else Nat.toDigits 10 z.natAbs

/-- `fmt_amount` from `builder.rs`: rounded whole-unit amount, a space, and
the currency symbol. -/
def fmt_amount (amount : ℚ) (currency : List Char) : List Char :=
  intChars (roundBankers amount) ++ [' '] ++ currency

/-! ## `builder.rs` — the fluent receipt builder

The builder state as implemented: an append-only byte buffer, the paper
width, and the currency symbol.  (Note: the implemented struct has no
language/label field.) -/

/-- `ReceiptBuilder` struct from `builder.rs`. -/
structure ReceiptBuilder where
  data : List Nat
  width : PrintWidth
  currency : List Char

namespace ReceiptBuilder

/-- `ReceiptBuilder::new`. -/
def new (width : PrintWidth) : ReceiptBuilder := ⟨[], width, strL "FCFA"⟩

/-- `ReceiptBuilder::currency` (the setter method; named apart from the
field projection). -/
def currency_set (b : ReceiptBuilder) (symbol : List Char) : ReceiptBuilder :=
  { b with currency := symbol }

/-- `ReceiptBuilder::build`. -/
def build (b : ReceiptBuilder) : List Nat := b.data

/-- `ReceiptBuilder::cols`. -/
def cols (b : ReceiptBuilder) : Nat := b.width.cols

/-- `ReceiptBuilder::push`. -/
def push (b : ReceiptBuilder) (bytes : List Nat) : ReceiptBuilder :=
  { b with data := b.data ++ bytes }

/-- `ReceiptBuilder::push_lf`. -/
def push_lf (b : ReceiptBuilder) : ReceiptBuilder :=
  { b with data := b.data ++ [commands.LF] }

/-- `ReceiptBuilder::push_text`. -/
def push_text (b : ReceiptBuilder) (text : List Char) : ReceiptBuilder :=
  b.push (encode_cp858 text)

/-- `ReceiptBuilder::push_text_line`. -/
def push_text_line (b : ReceiptBuilder) (text : List Char) : ReceiptBuilder :=
  (b.push_text text).push_lf

/-- `ReceiptBuilder::fmt`. -/
def fmt (b : ReceiptBuilder) (amount : ℚ) : List Char :=
  fmt_amount amount b.currency

/-- `ReceiptBuilder::init`: double reset, code page 858, left alignment,
normal size, bold off. -/
def init (b : ReceiptBuilder) : ReceiptBuilder :=
  ((((((((b.push commands.init).push_lf).push commands.init).push_lf).push
    commands.code_page_858).push commands.align_left).push
    commands.normal_size).push commands.bold_off).push_lf

/-- `ReceiptBuilder::align`. -/
def align (b : ReceiptBuilder) (a : Align) : ReceiptBuilder :=
  match a with
  | .Left => b.push commands.align_left
  | .Center => b.push commands.align_center
  | .Right => b.push commands.align_right

/-- `ReceiptBuilder::align_left`. -/
def align_left (b : ReceiptBuilder) : ReceiptBuilder := b.align .Left

/-- `ReceiptBuilder::align_center`. -/
def align_center (b : ReceiptBuilder) : ReceiptBuilder := b.align .Center

/-- `ReceiptBuilder::align_right`. -/
def align_right (b : ReceiptBuilder) : ReceiptBuilder := b.align .Right

/-- `ReceiptBuilder::bold`. -/
def bold (b : ReceiptBuilder) (o : Bool) : ReceiptBuilder :=
  b.push (if o then commands.bold_on else commands.bold_off)

/-- `ReceiptBuilder::double_size`. -/
def double_size (b : ReceiptBuilder) (o : Bool) : ReceiptBuilder :=
  b.push (if o then commands.double_size_on else commands.normal_size)

/-- `ReceiptBuilder::double_height`. -/
def double_height (b : ReceiptBuilder) (o : Bool) : ReceiptBuilder :=
  b.push (if o then commands.double_height_on else commands.normal_size)

/-- `ReceiptBuilder::normal_size`. -/
def normal_size (b : ReceiptBuilder) : ReceiptBuilder :=
  b.push commands.normal_size

/-- `ReceiptBuilder::underline`. -/
def underline (b : ReceiptBuilder) (o : Bool) : ReceiptBuilder :=
  b.push (if o then commands.underline_on else commands.underline_off)

/-- `ReceiptBuilder::text`. -/
def text (b : ReceiptBuilder) (s : List Char) : ReceiptBuilder := b.push_text s

/-- `ReceiptBuilder::text_line`. -/
def text_line (b : ReceiptBuilder) (s : List Char) : ReceiptBuilder :=
  b.push_text_line s

/-- `ReceiptBuilder::blank`. -/
def blank (b : ReceiptBuilder) : ReceiptBuilder := b.push_lf

/-- `ReceiptBuilder::divider`: repeats the character `cols()` times and
appends the raw UTF-8 bytes of that line (not CP858) plus a line feed. -/
def divider (b : ReceiptBuilder) (ch : Char) : ReceiptBuilder :=
  (b.push ((List.replicate b.cols (utf8Char ch)).flatten)).push_lf

/-- `ReceiptBuilder::centered`. -/
def centered (b : ReceiptBuilder) (t : List Char) : ReceiptBuilder :=
  b.push_text_line (center t b.cols)

/-- `ReceiptBuilder::right`. -/
def right (b : ReceiptBuilder) (t : List Char) : ReceiptBuilder :=
  b.push_text_line (right_align t b.cols)

/-- `ReceiptBuilder::row`. -/
def row (b : ReceiptBuilder) (l r : List Char) : ReceiptBuilder :=
  b.push_text_line (two_col l r b.cols)

/-- `ReceiptBuilder::feed`. -/
def feed (b : ReceiptBuilder) (n : Nat) : ReceiptBuilder :=
  b.push (commands.feed_lines n)

/-- `ReceiptBuilder::cut`. -/
def cut (b : ReceiptBuilder) : ReceiptBuilder := b.push commands.cut_partial

/-- `ReceiptBuilder::cut_full`. -/
def cut_full (b : ReceiptBuilder) : ReceiptBuilder := b.push commands.cut_full

/-- `ReceiptBuilder::form_feed`. -/
def form_feed (b : ReceiptBuilder) : ReceiptBuilder :=
  b.push commands.form_feed

/-- `ReceiptBuilder::barcode_code128`. -/
def barcode_code128 (b : ReceiptBuilder) (value : List Char) : ReceiptBuilder :=
  (((((b.push (commands.barcode_width 2)).push
    (commands.barcode_height 60)).push
    (commands.barcode_hri_position 2)).push
    (commands.barcode_hri_font 0)).push
    (commands.barcode_code128 value)).push_lf

/-- `ReceiptBuilder::barcode_code128_custom`. -/
def barcode_code128_custom (b : ReceiptBuilder) (value : List Char)
    (bar_width bar_height : Nat) : ReceiptBuilder :=
  (((((b.push (commands.barcode_width bar_width)).push
    (commands.barcode_height bar_height)).push
    (commands.barcode_hri_position 2)).push
    (commands.barcode_hri_font 0)).push
    (commands.barcode_code128 value)).push_lf

/-- `ReceiptBuilder::barcode_ean13`. -/
def barcode_ean13 (b : ReceiptBuilder) (value : List Char) : ReceiptBuilder :=
  ((((b.push (commands.barcode_width 2)).push
    (commands.barcode_height 60)).push
    (commands.barcode_hri_position 2)).push
    (commands.barcode_ean13 value)).push_lf

/-- `ReceiptBuilder::qr_code`. -/
def qr_code (b : ReceiptBuilder) (data : List Char) (size : Nat) :
    ReceiptBuilder :=
  (b.push (commands.qr_code data size)).push_lf

/-- `ReceiptBuilder::open_cash_drawer`. -/
def open_cash_drawer (b : ReceiptBuilder) : ReceiptBuilder :=
  b.push commands.cash_drawer_kick

/-- `ReceiptBuilder::logo_raw`. -/
def logo_raw (b : ReceiptBuilder) (raster_bytes : List Nat) : ReceiptBuilder :=
  (b.push raster_bytes).push_lf

/-- `ReceiptBuilder::shop_header`. -/
def shop_header (b : ReceiptBuilder) (name phone address : List Char) :
    ReceiptBuilder :=
  (((((((b.align_center.bold true).double_size true).text_line name).bold
    false).normal_size).text_line phone).text_line address).align_left

/-- `ReceiptBuilder::item`. -/
def item (b : ReceiptBuilder) (name : List Char) (qty : ℤ) (unit_price : ℚ)
    (discount : Option ℚ) : ReceiptBuilder :=
  let cols := b.cols
  let line_total := unit_price * qty
  let b := b.bold true
  let b := b.push_text_line (truncate name (cols - 2))
  let b := b.bold false
  let b := b.push_text_line (intChars qty ++ strL " x " ++ b.fmt unit_price)
  let b :=
    match discount with
    | some disc =>
      if 0 < disc then
        let b := b.push_text_line (right_align (b.fmt line_total) cols)
        let b := b.push_text_line (strL "  Remise: -" ++ b.fmt disc)
        let b := b.bold true
        let b := b.push_text_line (right_align (b.fmt (line_total - disc)) cols)
        b.bold false
      else
        b.push_text_line (right_align (b.fmt line_total) cols)
    | none =>
      b.push_text_line (right_align (b.fmt line_total) cols)
  b.push_lf

/-- `ReceiptBuilder::subtotal_ht`: hardcoded French label row plus the
`(Hors TVA)` note. -/
def subtotal_ht (b : ReceiptBuilder) (amount : ℚ) : ReceiptBuilder :=
  let cols := b.cols
  let b := b.push_text_line (two_col (strL "SOUS-TOTAL HT") (b.fmt amount) cols)
  b.push_text_line (right_align (strL "(Hors TVA)") cols)

/-- `ReceiptBuilder::discount`: no-op when `amount ≤ 0`. -/
def discount (b : ReceiptBuilder) (amount : ℚ)
    (coupon_code : Option (List Char)) : ReceiptBuilder :=
  if amount ≤ 0 then b
  else
    let label :=
      match coupon_code with
      | some code => strL "REMISE (" ++ code ++ strL ")"
      | none => strL "REMISE"
    b.push_text_line (two_col label ('-' :: b.fmt amount) b.cols)

/-- Loop body of `ReceiptBuilder::taxes`: entries with `amount ≤ 0` are
skipped; included entries get the `" (incluse)"` suffix, non-included ones a
`"+ "`-prefixed amount. -/
def taxStep (cols : Nat) (acc : ReceiptBuilder) (entry : TaxEntry) :
    ReceiptBuilder :=
  if entry.amount ≤ 0 then acc
  else
    let label :=
      if entry.included then strL "  " ++ entry.label ++ strL " (incluse)"
      else strL "  " ++ entry.label
    let value :=
      if entry.included then fmt_amount entry.amount acc.currency
      else strL "+ " ++ fmt_amount entry.amount acc.currency
    acc.push_text_line (two_col label value cols)

/-- `ReceiptBuilder::taxes`: header line, one row per displayable entry, and
— when the sum over **all** non-included entries is positive — a separator
plus a synthesized additional-taxes row. -/
def taxes (b : ReceiptBuilder) (entries : List TaxEntry) : ReceiptBuilder :=
  let cols := b.cols
  let additional := ((entries.filter fun t => !t.included).map TaxEntry.amount).sum
  let b1 := b.push_text_line (strL "DETAIL DES TAXES:")
  let b2 := entries.foldl (taxStep cols) b1
  if 0 < additional then
    let b3 := b2.push_text_line (strL "  " ++ List.replicate (cols - 2) '-')
    b3.push_text_line
      (two_col (strL "  Taxes additionnelles")
        (strL "+ " ++ fmt_amount additional b3.currency) cols)
  else b2

/-- `ReceiptBuilder::total`: bold + double height for exactly this row. -/
def total (b : ReceiptBuilder) (amount : ℚ) : ReceiptBuilder :=
  let cols := b.cols
  let r := two_col (strL "TOTAL") (b.fmt amount) cols
  let b := (b.bold true).double_height true
  let b := b.push_text_line r
  (b.normal_size).bold false

/-- `ReceiptBuilder::received`: no-op when `amount ≤ 0`; hardcoded French
label. -/
def received (b : ReceiptBuilder) (amount : ℚ) : ReceiptBuilder :=
  if amount ≤ 0 then b
  else b.push_text_line (two_col (strL "MONTANT RECU") (b.fmt amount) b.cols)

/-- `ReceiptBuilder::change`: no-op when `amount ≤ 0`; hardcoded French
label. -/
def change (b : ReceiptBuilder) (amount : ℚ) : ReceiptBuilder :=
  if amount ≤ 0 then b
  else b.push_text_line (two_col (strL "MONNAIE") (b.fmt amount) b.cols)

/-- `ReceiptBuilder::served_by`: hardcoded French prefix. -/
def served_by (b : ReceiptBuilder) (name : List Char) : ReceiptBuilder :=
  b.push_text_line (strL "Servi par: " ++ name)

/-- `ReceiptBuilder::thank_you`: hardcoded French footer lines. -/
def thank_you (b : ReceiptBuilder) (shop_name : List Char) : ReceiptBuilder :=
  ((b.align_center.text_line
    (strL "Merci pour votre confiance!")).text_line
    (strL "A bientot chez " ++ shop_name)).align_left

end ReceiptBuilder

/-! ## `dither.rs` — image dithering pipeline

The `f32` working buffers are modelled as exact rationals: the claims
settled here concern only the byte-length and dimension arithmetic, which
does not depend on float rounding. -/

/-- `DitherMethod` from `dither.rs`. -/
inductive DitherMethod where
  | Threshold
  | FloydSteinberg
deriving DecidableEq

/-- Luminance of the pixel at linear index `i` (BT.601, alpha composited
against a white background), from `to_grayscale_resized`. -/
def lum (rgba : List Nat) (i : Nat) : ℚ :=
  let r : ℚ := rgba.getD (i * 4) 0
  let g : ℚ := rgba.getD (i * 4 + 1) 0
  let b : ℚ := rgba.getD (i * 4 + 2) 0
  let a : ℚ := (rgba.getD (i * 4 + 3) 0 : ℚ) / 255
  (299 / 1000 * r + 587 / 1000 * g + 114 / 1000 * b) * a + 255 * (1 - a)

/-- One bilinearly interpolated sample of `to_grayscale_resized`'s downscale
loop. -/
def bilinearSample (gray : List ℚ) (width height new_w new_h x y : Nat) : ℚ :=
  let src_x : ℚ := (x * (width - 1) : Nat) / (max (new_w - 1) 1 : Nat)
  let src_y : ℚ := (y * (height - 1) : Nat) / (max (new_h - 1) 1 : Nat)
  let x0 := (⌊src_x⌋).toNat
  let y0 := (⌊src_y⌋).toNat
  let x1 := min (x0 + 1) (width - 1)
  let y1 := min (y0 + 1) (height - 1)
  let fx := src_x - x0
  let fy := src_y - y0
  let p00 := gray.getD (y0 * width + x0) 0
  let p10 := gray.getD (y0 * width + x1) 0
  let p01 := gray.getD (y1 * width + x0) 0
  let p11 := gray.getD (y1 * width + x1) 0
  p00 * (1 - fx) * (1 - fy) + p10 * fx * (1 - fy)
    + p01 * (1 - fx) * fy + p11 * fx * fy

/-- `to_grayscale_resized` from `dither.rs`: grayscale conversion, then a
bilinear downscale only when `width > max_width_px`; the new height is the
truncating integer division `height * max_width_px / width`, clamped below
by 1. -/
def to_grayscale_resized (rgba : List Nat) (width height max_width_px : Nat) :
    List ℚ × Nat × Nat :=
  let gray := (List.range (width * height)).map (lum rgba)
  if width ≤ max_width_px then (gray, width, height)
  else
    let new_w := max_width_px
    let new_h := max (height * max_width_px / width) 1
    let resized := (List.range new_h).flatMap fun y =>
      (List.range new_w).map fun x =>
        bilinearSample gray width height new_w new_h x y
    (resized, new_w, new_h)

/-- `threshold` from `dither.rs`: pixel `< 128` becomes black (the width
and height parameters are unused in the source, too). -/
def threshold (gray : List ℚ) (_w _h : Nat) : List Bool :=
  gray.map fun v => decide (v < 128)

/-- Add `v` to the buffer entry at index `i` (`buf[i] += v`). -/
def addAt (l : List ℚ) (i : Nat) (v : ℚ) : List ℚ :=
  l.set i (l.getD i 0 + v)

/-- One step of the Floyd–Steinberg scan (`dither.rs`), at linear index
`idx` with `x = idx % w`, `y = idx / w`: quantize, record the mono bit, and
diffuse the error 7/16 right, 3/16 below-left, 5/16 below, 1/16
below-right. -/
def fsStep (w h : Nat) (st : List ℚ × List Bool) (idx : Nat) :
    List ℚ × List Bool :=
  let x := idx % w
  let y := idx / w
  let old := st.1.getD idx 0
  let new_val : ℚ := if old < 128 then 0 else 255
  let mono := st.2.set idx (decide (old < 128))
  let err := old - new_val
  let buf := if x + 1 < w then addAt st.1 (idx + 1) (err * 7 / 16) else st.1
  let buf :=
    if y + 1 < h then
      let buf := if 0 < x then addAt buf ((y + 1) * w + (x - 1)) (err * 3 / 16) else buf
      let buf := addAt buf ((y + 1) * w + x) (err * 5 / 16)
      if x + 1 < w then addAt buf ((y + 1) * w + (x + 1)) (err * 1 / 16) else buf
    else buf
  (buf, mono)

/-- `floyd_steinberg` from `dither.rs`: row-major scan over a float working
buffer initialised from the grayscale image, mono bitmap initialised all
white. -/
def floyd_steinberg (gray : List ℚ) (w h : Nat) : List Bool :=
  ((List.range (h * w)).foldl (fsStep w h) (gray, List.replicate (w * h) false)).2

/-- One packed raster row of `pack_raster`: `bytes_per_line` zero bytes,
with bit `7 - x % 8` of byte `x / 8` set for each black pixel. -/
def packRow (mono : List Bool) (w y bpl : Nat) : List Nat :=
  (List.range w).foldl
    (fun row x =>
      if mono.getD (y * w + x) false then
        row.set (x / 8) (row.getD (x / 8) 0 ||| 1 <<< (7 - x % 8))
      else row)
    (List.replicate bpl 0)

/-- `pack_raster` from `dither.rs`: rows padded to `⌈w/8⌉` bytes, MSB first,
wrapped in the `GS v 0` raster command. -/
def pack_raster (mono : List Bool) (w h : Nat) : List Nat :=
  let bpl := (w + 7) / 8
  commands.raster_image bpl h ((List.range h).flatMap fun y => packRow mono w y bpl)

/-- `dither_rgba` from `dither.rs`.  The `assert_eq!` on the RGBA buffer
length is modelled as `none`. -/
def dither_rgba (rgba : List Nat) (width height max_width_px : Nat)
    (method : DitherMethod) : Option (List Nat) :=
  if rgba.length = width * height * 4 then
    let grs := to_grayscale_resized rgba width height max_width_px
    let w := grs.2.1
    let h := grs.2.2
    let mono :=
      match method with
      | .Threshold => threshold grs.1 w h
      | .FloydSteinberg => floyd_steinberg grs.1 w h
    some (pack_raster mono w h)
  else none

/-- A positive non-included tax entry (test fixture). -/
def taxA : TaxEntry := ⟨strL "A", 100, false⟩

/-- A negative non-included tax entry (test fixture). -/
def taxB : TaxEntry := ⟨strL "B", -100, false⟩

/-! ## Claims C3–C6 -/

/-- C3: for every `left`, `right` and `width`, the character count of
`two_col left right width` equals `width` whenever
`len left + len right < width − 1`; the gap between the columns is never
zero spaces; and when `len left + len right ≥ width − 1` the gap is exactly
one space. -/
theorem c3_two_col_layout (left right : List Char) (width : Nat) :
    (left.length + right.length + 1 < width →
      (two_col left right width).length = width) ∧
    (∃ g, 1 ≤ g ∧
      two_col left right width = left ++ List.replicate g ' ' ++ right) ∧
    (width ≤ left.length + right.length + 1 →
      two_col left right width = left ++ [' '] ++ right) := by
  refine ⟨?_, ?_, ?_⟩
  · intro h
    simp only [two_col, List.length_append, List.length_replicate]
    have h2 : 2 ≤ width - (left.length + right.length) := by omega
    rw [max_eq_left (by omega)]
    omega
  · exact ⟨max (width - (left.length + right.length)) 1, le_max_right _ _, rfl⟩
  · intro h
    have : max (width - (left.length + right.length)) 1 = 1 := by
      rw [max_eq_right (by omega)]
    simp [two_col, this]

/-- Witness for C3 at concrete inputs. -/
theorem c3_two_col_layout_witness :
    (two_col (strL "AB") (strL "CD") 10).length = 10 ∧
    two_col (strL "AB") (strL "CD") 3 = strL "AB" ++ [' '] ++ strL "CD" := by
  exact ⟨(c3_two_col_layout (strL "AB") (strL "CD") 10).1 (by decide),
         (c3_two_col_layout (strL "AB") (strL "CD") 3).2.2 (by decide)⟩

/-- C4: for every `text` and every `max_chars ≥ 3`, the character count of
`truncate text max_chars` is at most `max_chars`, and when the input's
character count exceeds `max_chars` the output is the first `max_chars − 3`
characters followed by the 3-character ellipsis, of length exactly
`max_chars`. -/
theorem c4_truncate_bound (text : List Char) (max_chars : Nat)
    (h : 3 ≤ max_chars) :
    (truncate text max_chars).length ≤ max_chars ∧
    (max_chars < text.length →
      truncate text max_chars = text.take (max_chars - 3) ++ strL "..." ∧
      (truncate text max_chars).length = max_chars) := by
  constructor
  · by_cases hle : text.length ≤ max_chars
    · simp [truncate, hle]
    · simp only [truncate, if_neg hle]
      simp only [List.length_append, List.length_take, strL]
      have : min (max_chars - 3) text.length = max_chars - 3 := by omega
      simp [this]
      omega
  · intro hgt
    have hle : ¬ text.length ≤ max_chars := by omega
    refine ⟨by simp [truncate, hle], ?_⟩
    simp only [truncate, if_neg hle, List.length_append, List.length_take, strL]
    have : min (max_chars - 3) text.length = max_chars - 3 := by omega
    simp [this]
    omega

/-- Witness for C4 at a concrete input. -/
theorem c4_truncate_bound_witness :
    (truncate (strL "hello world") 8).length ≤ 8 ∧
    (truncate (strL "hello world") 8).length = 8 := by
  refine ⟨(c4_truncate_bound (strL "hello world") 8 (by decide)).1, ?_⟩
  exact ((c4_truncate_bound (strL "hello world") 8 (by decide)).2 (by decide)).2

/-- C5 as stated is false at `max_chars = 0`: the output `"..."` exceeds the
bound by 3, not by at most 2. -/
theorem c5_counterexample :
    0 < (strL "a").length ∧ ¬ (truncate (strL "a") 0).length ≤ 0 + 2 := by
  decide

/-- C5 (amended): for every `text` and every `max_chars < 3` with the input's
character count exceeding `max_chars`, the cut length saturates to 0 — the
output keeps no input characters and is exactly the 3-character ellipsis,
exceeding `max_chars` by `3 − max_chars` (up to 3, not 2). -/
theorem c5_truncate_small (text : List Char) (max_chars : Nat)
    (hsmall : max_chars < 3) (hgt : max_chars < text.length) :
    truncate text max_chars = strL "..." ∧
    (truncate text max_chars).length = 3 := by
  have hle : ¬ text.length ≤ max_chars := by omega
  have hcut : max_chars - 3 = 0 := by omega
  constructor
  · simp [truncate, hle, hcut]
  · simp [truncate, hle, hcut, strL]

/-- Witness for C5 (amended) at a concrete input. -/
theorem c5_truncate_small_witness :
    truncate (strL "ab") 1 = strL "..." ∧
    (truncate (strL "ab") 1).length = 3 :=
  c5_truncate_small (strL "ab") 1 (by decide) (by decide)

/-- C6 as stated is false: the EAN13 emitter does not fail on a value that is
not 12 ASCII digits — it still returns a byte sequence
(`GS k 2` ++ bytes ++ NUL). -/
theorem c6_counterexample :
    isEan13Payload (strL "AB") = false ∧
    commands.barcode_ean13 (strL "AB") = [0x1D, 0x6B, 2, 65, 66, 0] := by
  decide

/-- C6 (amended): the 12-ASCII-digit requirement is a documented caller
precondition that is not checked: for every value — malformed or not — the
EAN13 emitter returns a byte sequence of length `len(value bytes) + 4`
ending in the null terminator, never failing at the call. -/
theorem c6_ean13_total (value : List Char) :
    (commands.barcode_ean13 value).length = (utf8 value).length + 4 ∧
    (commands.barcode_ean13 value).getLast? = some 0 := by
  have hsplit : commands.barcode_ean13 value
      = ([0x1D, 0x6B, 2] ++ utf8 value) ++ [0] := by
    simp [commands.barcode_ean13, commands.GS]
  constructor
  · rw [hsplit]
    simp
  · rw [hsplit, List.getLast?_concat]

/-! ## Builder monotonicity helpers -/

/-- `push` only appends. -/
theorem push_extends (b : ReceiptBuilder) (x : List Nat) :
    b.data <+: (b.push x).data := ⟨x, rfl⟩

/-- `push_lf` only appends. -/
theorem push_lf_extends (b : ReceiptBuilder) :
    b.data <+: b.push_lf.data := ⟨[commands.LF], rfl⟩

/-- `push_text` only appends. -/
theorem push_text_extends (b : ReceiptBuilder) (t : List Char) :
    b.data <+: (b.push_text t).data := push_extends b _

/-- `push_text_line` only appends. -/
theorem push_text_line_extends (b : ReceiptBuilder) (t : List Char) :
    b.data <+: (b.push_text_line t).data :=
  (push_text_extends b t).trans (push_lf_extends _)

/-- `bold` only appends. -/
theorem bold_extends (b : ReceiptBuilder) (o : Bool) :
    b.data <+: (b.bold o).data := push_extends b _

/-- `align` only appends. -/
theorem align_extends (b : ReceiptBuilder) (a : Align) :
    b.data <+: (b.align a).data := by
  cases a <;> exact push_extends b _

/-- The taxes loop body only appends. -/
theorem taxStep_extends (cols : Nat) (b : ReceiptBuilder) (e : TaxEntry) :
    b.data <+: (ReceiptBuilder.taxStep cols b e).data := by
  dsimp only [ReceiptBuilder.taxStep]
  split
  · exact List.prefix_rfl
  · exact push_text_line_extends _ _

/-- The taxes loop only appends. -/
theorem foldl_taxStep_extends (cols : Nat) :
    ∀ (es : List TaxEntry) (b : ReceiptBuilder),
      b.data <+: (es.foldl (ReceiptBuilder.taxStep cols) b).data := by
  intro es
  induction es with
  | nil => intro b; exact List.prefix_rfl
  | cons e es ih => intro b; exact (taxStep_extends cols b e).trans (ih _)

/-- C9: byte emission is monotonic — for every builder state and every
builder operation (init, alignment, styles, text, rows, dividers, feeds,
cuts, barcodes, QR, cash drawer, logo_raw, and all composite receipt
helpers), the byte sequence before the operation is a prefix of the byte
sequence after it. -/
theorem c9_monotonic_emission :
    (∀ b : ReceiptBuilder, b.data <+: b.init.data) ∧
    (∀ (b : ReceiptBuilder) (a : Align), b.data <+: (b.align a).data) ∧
    (∀ (b : ReceiptBuilder) (o : Bool), b.data <+: (b.bold o).data) ∧
    (∀ (b : ReceiptBuilder) (o : Bool), b.data <+: (b.double_size o).data) ∧
    (∀ (b : ReceiptBuilder) (o : Bool), b.data <+: (b.double_height o).data) ∧
    (∀ b : ReceiptBuilder, b.data <+: b.normal_size.data) ∧
    (∀ (b : ReceiptBuilder) (o : Bool), b.data <+: (b.underline o).data) ∧
    (∀ (b : ReceiptBuilder) (s : List Char), b.data <+: (b.text s).data) ∧
    (∀ (b : ReceiptBuilder) (s : List Char), b.data <+: (b.text_line s).data) ∧
    (∀ b : ReceiptBuilder, b.data <+: b.blank.data) ∧
    (∀ (b : ReceiptBuilder) (ch : Char), b.data <+: (b.divider ch).data) ∧
    (∀ (b : ReceiptBuilder) (t : List Char), b.data <+: (b.centered t).data) ∧
    (∀ (b : ReceiptBuilder) (t : List Char), b.data <+: (b.right t).data) ∧
    (∀ (b : ReceiptBuilder) (l r : List Char), b.data <+: (b.row l r).data) ∧
    (∀ (b : ReceiptBuilder) (n : Nat), b.data <+: (b.feed n).data) ∧
    (∀ b : ReceiptBuilder, b.data <+: b.cut.data) ∧
    (∀ b : ReceiptBuilder, b.data <+: b.cut_full.data) ∧
    (∀ b : ReceiptBuilder, b.data <+: b.form_feed.data) ∧
    (∀ (b : ReceiptBuilder) (v : List Char),
      b.data <+: (b.barcode_code128 v).data) ∧
    (∀ (b : ReceiptBuilder) (v : List Char) (bw bh : Nat),
      b.data <+: (b.barcode_code128_custom v bw bh).data) ∧
    (∀ (b : ReceiptBuilder) (v : List Char),
      b.data <+: (b.barcode_ean13 v).data) ∧
    (∀ (b : ReceiptBuilder) (d : List Char) (sz : Nat),
      b.data <+: (b.qr_code d sz).data) ∧
    (∀ b : ReceiptBuilder, b.data <+: b.open_cash_drawer.data) ∧
    (∀ (b : ReceiptBuilder) (bytes : List Nat),
      b.data <+: (b.logo_raw bytes).data) ∧
    (∀ (b : ReceiptBuilder) (n p a : List Char),
      b.data <+: (b.shop_header n p a).data) ∧
    (∀ (b : ReceiptBuilder) (n : List Char) (q : ℤ) (up : ℚ) (d : Option ℚ),
      b.data <+: (b.item n q up d).data) ∧
    (∀ (b : ReceiptBuilder) (amt : ℚ), b.data <+: (b.subtotal_ht amt).data) ∧
    (∀ (b : ReceiptBuilder) (amt : ℚ) (c : Option (List Char)),
      b.data <+: (b.discount amt c).data) ∧
    (∀ (b : ReceiptBuilder) (es : List TaxEntry),
      b.data <+: (b.taxes es).data) ∧
    (∀ (b : ReceiptBuilder) (amt : ℚ), b.data <+: (b.total amt).data) ∧
    (∀ (b : ReceiptBuilder) (amt : ℚ), b.data <+: (b.received amt).data) ∧
    (∀ (b : ReceiptBuilder) (amt : ℚ), b.data <+: (b.change amt).data) ∧
    (∀ (b : ReceiptBuilder) (n : List Char), b.data <+: (b.served_by n).data) ∧
    (∀ (b : ReceiptBuilder) (s : List Char), b.data <+: (b.thank_you s).data) := by
  refine ⟨?_, align_extends, bold_extends, ?_, ?_, ?_, ?_, ?_, ?_, ?_, ?_,
    ?_, ?_, ?_, ?_, ?_, ?_, ?_, ?_, ?_, ?_, ?_, ?_, ?_, ?_, ?_, ?_, ?_, ?_,
    ?_, ?_, ?_, ?_, ?_⟩
  · exact fun b =>
      ((((((((push_extends b _).trans (push_lf_extends _)).trans
        (push_extends _ _)).trans (push_lf_extends _)).trans
        (push_extends _ _)).trans (push_extends _ _)).trans
        (push_extends _ _)).trans (push_extends _ _)).trans (push_lf_extends _)
  · exact fun b o => push_extends b _
  · exact fun b o => push_extends b _
  · exact fun b => push_extends b _
  · exact fun b o => push_extends b _
  · exact push_text_extends
  · exact push_text_line_extends
  · exact push_lf_extends
  · exact fun b ch => (push_extends b _).trans (push_lf_extends _)
  · exact fun b t => push_text_line_extends b _
  · exact fun b t => push_text_line_extends b _
  · exact fun b l r => push_text_line_extends b _
  · exact fun b n => push_extends b _
  · exact fun b => push_extends b _
  · exact fun b => push_extends b _
  · exact fun b => push_extends b _
  · exact fun b v =>
      (((((push_extends b _).trans (push_extends _ _)).trans
        (push_extends _ _)).trans (push_extends _ _)).trans
        (push_extends _ _)).trans (push_lf_extends _)
  · exact fun b v bw bh =>
      (((((push_extends b _).trans (push_extends _ _)).trans
        (push_extends _ _)).trans (push_extends _ _)).trans
        (push_extends _ _)).trans (push_lf_extends _)
  · exact fun b v =>
      ((((push_extends b _).trans (push_extends _ _)).trans
        (push_extends _ _)).trans (push_extends _ _)).trans (push_lf_extends _)
  · exact fun b d sz => (push_extends b _).trans (push_lf_extends _)
  · exact fun b => push_extends b _
  · exact fun b bytes => (push_extends b _).trans (push_lf_extends _)
  · exact fun b n p a =>
      ((((((((align_extends b _).trans (bold_extends _ _)).trans
        (push_extends _ _)).trans (push_text_line_extends _ _)).trans
        (bold_extends _ _)).trans (push_extends _ _)).trans
        (push_text_line_extends _ _)).trans
        (push_text_line_extends _ _)).trans (align_extends _ _)
  · intro b n q up d
    dsimp only [ReceiptBuilder.item]
    cases d with
    | none =>
      exact (((((bold_extends b _).trans (push_text_line_extends _ _)).trans
        (bold_extends _ _)).trans (push_text_line_extends _ _)).trans
        (push_text_line_extends _ _)).trans (push_lf_extends _)
    | some disc =>
      by_cases hd : 0 < disc
      · simp only [if_pos hd]
        exact (((((((((bold_extends b _).trans
          (push_text_line_extends _ _)).trans (bold_extends _ _)).trans
          (push_text_line_extends _ _)).trans
          (push_text_line_extends _ _)).trans
          (push_text_line_extends _ _)).trans (bold_extends _ _)).trans
          (push_text_line_extends _ _)).trans (bold_extends _ _)).trans
          (push_lf_extends _)
      · simp only [if_neg hd]
        exact (((((bold_extends b _).trans (push_text_line_extends _ _)).trans
          (bold_extends _ _)).trans (push_text_line_extends _ _)).trans
          (push_text_line_extends _ _)).trans (push_lf_extends _)
  · exact fun b amt =>
      (push_text_line_extends b _).trans (push_text_line_extends _ _)
  · intro b amt c
    dsimp only [ReceiptBuilder.discount]
    split
    · exact List.prefix_rfl
    · exact push_text_line_extends _ _
  · intro b es
    dsimp only [ReceiptBuilder.taxes]
    split
    · exact ((push_text_line_extends b _).trans
        (foldl_taxStep_extends _ es _)).trans
        ((push_text_line_extends _ _).trans (push_text_line_extends _ _))
    · exact (push_text_line_extends b _).trans (foldl_taxStep_extends _ es _)
  · exact fun b amt =>
      ((((bold_extends b _).trans (push_extends _ _)).trans
        (push_text_line_extends _ _)).trans (push_extends _ _)).trans
        (bold_extends _ _)
  · intro b amt
    dsimp only [ReceiptBuilder.received]
    split
    · exact List.prefix_rfl
    · exact push_text_line_extends _ _
  · intro b amt
    dsimp only [ReceiptBuilder.change]
    split
    · exact List.prefix_rfl
    · exact push_text_line_extends _ _
  · exact fun b n => push_text_line_extends b _
  · exact fun b s =>
      ((align_extends b _).trans ((push_text_line_extends _ _).trans
        (push_text_line_extends _ _))).trans (align_extends _ _)

/-- C8: `discount`, `received` and `change` leave the builder (hence the
byte buffer) completely unchanged whenever `amount ≤ 0`, and `item` with
discount `some d` where `d ≤ 0` produces a builder identical to the same
call with discount `none`. -/
theorem c8_nonpositive_amounts_inert :
    (∀ (b : ReceiptBuilder) (amount : ℚ) (coupon : Option (List Char)),
      amount ≤ 0 → b.discount amount coupon = b) ∧
    (∀ (b : ReceiptBuilder) (amount : ℚ), amount ≤ 0 → b.received amount = b) ∧
    (∀ (b : ReceiptBuilder) (amount : ℚ), amount ≤ 0 → b.change amount = b) ∧
    (∀ (b : ReceiptBuilder) (name : List Char) (qty : ℤ) (price d : ℚ),
      d ≤ 0 → b.item name qty price (some d) = b.item name qty price none) := by
  refine ⟨?_, ?_, ?_, ?_⟩
  · intro b amount coupon h
    simp [ReceiptBuilder.discount, h]
  · intro b amount h
    simp [ReceiptBuilder.received, h]
  · intro b amount h
    simp [ReceiptBuilder.change, h]
  · intro b name qty price d h
    have hd : ¬ 0 < d := not_lt.mpr h
    simp [ReceiptBuilder.item, hd]

/-- Witness for C8 at concrete inputs (including `item` with `Some 0` versus
`None`). -/
theorem c8_nonpositive_amounts_inert_witness :
    (ReceiptBuilder.new PrintWidth.Mm80).discount 0 none
        = ReceiptBuilder.new PrintWidth.Mm80 ∧
    (ReceiptBuilder.new PrintWidth.Mm80).received (-5)
        = ReceiptBuilder.new PrintWidth.Mm80 ∧
    (ReceiptBuilder.new PrintWidth.Mm80).change 0
        = ReceiptBuilder.new PrintWidth.Mm80 ∧
    (ReceiptBuilder.new PrintWidth.Mm80).item (strL "Article") 1 10000 (some 0)
        = (ReceiptBuilder.new PrintWidth.Mm80).item (strL "Article") 1 10000 none :=
  ⟨c8_nonpositive_amounts_inert.1 _ 0 none le_rfl,
   c8_nonpositive_amounts_inert.2.1 _ (-5) (by norm_num),
   c8_nonpositive_amounts_inert.2.2.1 _ 0 le_rfl,
   c8_nonpositive_amounts_inert.2.2.2 _ _ 1 10000 0 le_rfl⟩

/-- `⌈w/8⌉` copies of one scalar's UTF-8 bytes: an ASCII scalar encodes to a
single byte. -/
theorem utf8Char_length_ascii (c : Char) (h : c.toNat < 128) :
    (utf8Char c).length = 1 := by
  simp [utf8Char, h]

/-- A non-ASCII scalar encodes to at least two UTF-8 bytes. -/
theorem utf8Char_length_ge_two (c : Char) (h : 128 ≤ c.toNat) :
    2 ≤ (utf8Char c).length := by
  have h1 : ¬ c.toNat < 128 := not_lt.mpr h
  simp only [utf8Char, if_neg h1]
  split
  · simp
  · split <;> simp

/-- Length of the flattening of `n` copies of a list. -/
theorem flatten_replicate_length {α : Type} (n : Nat) (l : List α) :
    ((List.replicate n l).flatten).length = n * l.length := by
  induction n with
  | zero => simp
  | succ n ih => simp [List.replicate_succ, ih]; ring

/-- Every paper width has a positive column count. -/
theorem cols_pos (w : PrintWidth) : 0 < w.cols := by
  cases w <;> simp [PrintWidth.cols]

/-- C10: `divider ch` bypasses the CP858 encoder — it appends the raw UTF-8
encoding of `ch` repeated `cols()` times followed by a line feed; for ASCII
`ch` the emitted line is exactly `cols()` bytes before the line feed, while
for non-ASCII `ch` it is strictly longer. -/
theorem c10_divider_raw_utf8 (b : ReceiptBuilder) (ch : Char) :
    (b.divider ch).data
        = b.data ++ (List.replicate b.cols (utf8Char ch)).flatten
            ++ [commands.LF] ∧
    (ch.toNat < 128 →
      ((List.replicate b.cols (utf8Char ch)).flatten).length = b.cols) ∧
    (128 ≤ ch.toNat →
      b.cols < ((List.replicate b.cols (utf8Char ch)).flatten).length) := by
  refine ⟨?_, ?_, ?_⟩
  · simp [ReceiptBuilder.divider, ReceiptBuilder.push, ReceiptBuilder.push_lf]
  · intro h
    rw [flatten_replicate_length, utf8Char_length_ascii ch h, Nat.mul_one]
  · intro h
    rw [flatten_replicate_length]
    have h2 := utf8Char_length_ge_two ch h
    have hc := cols_pos b.width
    calc b.cols = b.cols * 1 := (Nat.mul_one _).symm
    _ < b.cols * (utf8Char ch).length :=
        mul_lt_mul_of_pos_left (by omega) hc

/-- Witness for C10 at `'='` (ASCII) and `'═'` (U+2550, non-ASCII). -/
theorem c10_divider_raw_utf8_witness :
    ((List.replicate (ReceiptBuilder.new PrintWidth.Mm58).cols
        (utf8Char '=')).flatten).length
      = (ReceiptBuilder.new PrintWidth.Mm58).cols ∧
    (ReceiptBuilder.new PrintWidth.Mm58).cols
      < ((List.replicate (ReceiptBuilder.new PrintWidth.Mm58).cols
          (utf8Char (Char.ofNat 9552))).flatten).length :=
  ⟨(c10_divider_raw_utf8 (ReceiptBuilder.new PrintWidth.Mm58) '=').2.1
      (by decide),
   (c10_divider_raw_utf8 (ReceiptBuilder.new PrintWidth.Mm58)
      (Char.ofNat 9552)).2.2 (by decide)⟩

/-- Banker's rounding of an integral rational is the identity. -/
theorem roundBankers_intCast (z : ℤ) : roundBankers (z : ℚ) = z := by
  unfold roundBankers
  norm_num

/-- `fmt_amount` on an integral amount. -/
theorem fmt_amount_intCast (z : ℤ) (c : List Char) :
    fmt_amount (z : ℚ) c = intChars z ++ [' '] ++ c := by
  rw [fmt_amount, roundBankers_intCast]

/-- C1 (code bug): the implemented builder keeps no label state and its
high-level rows hardcode the French strings — `received` emits the
`"MONTANT RECU"` row (for any builder, so for any selected language there
is no way to obtain the active language's label), even though the `i18n`
table for English binds `received` to the different string
`"AMOUNT RECEIVED"`. -/
theorem c1_builder_hardcodes_french_labels :
    ((ReceiptBuilder.new PrintWidth.Mm80).received 100).data
        = encode_cp858 (two_col (strL "MONTANT RECU") (strL "100 FCFA") 48)
            ++ [commands.LF] ∧
    Language.En.labels.received = strL "AMOUNT RECEIVED" ∧
    strL "MONTANT RECU" ≠ strL "AMOUNT RECEIVED" := by
  refine ⟨?_, by decide, by decide⟩
  have hneg : ¬ ((100 : ℚ) ≤ 0) := by norm_num
  have hfmt : (ReceiptBuilder.new PrintWidth.Mm80).fmt 100 = strL "100 FCFA" := by
    show fmt_amount 100 (strL "FCFA") = strL "100 FCFA"
    have hcast : (100 : ℚ) = ((100 : ℤ) : ℚ) := by norm_num
    rw [hcast, fmt_amount_intCast]
    decide
  simp only [ReceiptBuilder.received, if_neg hneg]
  rw [hfmt]
  decide

/-! ## C7 helpers -/

/-- `push_text_line` grows the buffer by the encoded text plus one line
feed. -/
theorem push_text_line_data_length (b : ReceiptBuilder) (t : List Char) :
    (b.push_text_line t).data.length
      = b.data.length + (encode_cp858 t).length + 1 := by
  simp [ReceiptBuilder.push_text_line, ReceiptBuilder.push_text,
    ReceiptBuilder.push, ReceiptBuilder.push_lf]
  omega

/-- Dropping included entries with non-positive amounts does not change the
non-included amount sum used for the synthesized additional-taxes row. -/
theorem additional_sum_filter (es : List TaxEntry) :
    ((((es.filter fun t => decide (0 < t.amount) || !t.included).filter
        fun t => !t.included).map TaxEntry.amount).sum)
      = ((es.filter fun t => !t.included).map TaxEntry.amount).sum := by
  rw [List.filter_filter]
  have hpred :
      (fun a : TaxEntry => !a.included && (decide (0 < a.amount) || !a.included))
        = fun t : TaxEntry => !t.included := by
    funext t
    cases h : t.included <;> simp [h]
  rw [hpred]

/-- The taxes loop ignores entries dropped by the
`0 < amount ∨ ¬included` filter (they all have `amount ≤ 0`, so the loop
skips them anyway). -/
theorem foldl_taxStep_filter (cols : Nat) (es : List TaxEntry) :
    ∀ b : ReceiptBuilder,
      (es.filter fun t => decide (0 < t.amount) || !t.included).foldl
          (ReceiptBuilder.taxStep cols) b
        = es.foldl (ReceiptBuilder.taxStep cols) b := by
  induction es with
  | nil => intro b; rfl
  | cons e es ih =>
    intro b
    by_cases hk : (decide (0 < e.amount) || !e.included) = true
    · rw [List.filter_cons, if_pos hk]
      simp only [List.foldl_cons]
      exact ih _
    · have hna : ¬ 0 < e.amount := by
        intro hlt
        exact hk (by simp [hlt])
      have hstep : ReceiptBuilder.taxStep cols b e = b := by
        simp [ReceiptBuilder.taxStep, not_lt.mp hna]
      rw [List.filter_cons, if_neg hk]
      simp only [List.foldl_cons, hstep]
      exact ih b

/-- C7 as stated is false: removing a non-included entry with negative
amount changes the synthesized additional-taxes sum, hence the bytes. -/
theorem c7_counterexample :
    ((ReceiptBuilder.new PrintWidth.Mm80).taxes [taxA, taxB]).data
      ≠ ((ReceiptBuilder.new PrintWidth.Mm80).taxes
          ([taxA, taxB].filter fun t => decide (0 < t.amount))).data := by
  have h1 : (0 : ℚ) < 100 := by norm_num
  have h2 : ¬ ((0 : ℚ) < -100) := by norm_num
  have h3 : (-100 : ℚ) ≤ 0 := by norm_num
  have hfilter : ([taxA, taxB].filter fun t => decide (0 < t.amount)) = [taxA] := by
    simp [List.filter, taxA, taxB, h1, h2]
  rw [hfilter]
  dsimp only [ReceiptBuilder.taxes]
  have haddL : (([taxA, taxB].filter fun t => !t.included).map
      TaxEntry.amount).sum = 0 := by
    simp [List.filter, taxA, taxB]
  have haddR : (([taxA].filter fun t => !t.included).map
      TaxEntry.amount).sum = 100 := by
    simp [List.filter, taxA]
  rw [haddL, haddR]
  rw [if_neg (lt_irrefl (0 : ℚ)), if_pos h1]
  have hfold : ∀ b : ReceiptBuilder,
      [taxA, taxB].foldl
          (ReceiptBuilder.taxStep (ReceiptBuilder.new PrintWidth.Mm80).cols) b
        = [taxA].foldl
          (ReceiptBuilder.taxStep (ReceiptBuilder.new PrintWidth.Mm80).cols) b := by
    intro b
    simp only [List.foldl_cons, List.foldl_nil]
    have hskip : ∀ X : ReceiptBuilder,
        ReceiptBuilder.taxStep (ReceiptBuilder.new PrintWidth.Mm80).cols X taxB
          = X := by
      intro X
      simp [ReceiptBuilder.taxStep, taxB, h3]
    exact hskip _
  rw [hfold]
  intro heq
  have hlen := congrArg List.length heq
  rw [push_text_line_data_length, push_text_line_data_length] at hlen
  omega

/-- C7 (amended): tax entries with `amount ≤ 0` emit no displayed row and
raise no error; removing the *included* ones among them leaves the emitted
bytes unchanged — but a *non-included* entry still contributes its (possibly
non-positive) amount to the synthesized additional-taxes sum, so only
entries that are included or non-positive-and-non-included-with-zero effect
can be dropped: precisely, `taxes entries` equals `taxes` of the list with
the included non-positive entries removed. -/
theorem c7_amended_taxes_filter (b : ReceiptBuilder) (entries : List TaxEntry) :
    b.taxes entries
      = b.taxes (entries.filter fun t => decide (0 < t.amount) || !t.included) := by
  dsimp only [ReceiptBuilder.taxes]
  rw [additional_sum_filter, foldl_taxStep_filter]

/-! ## C2 helpers — raster output length -/

/-- A fold whose step preserves list length preserves it overall. -/
theorem foldl_length_const {α β : Type} (f : List β → α → List β)
    (hf : ∀ acc a, (f acc a).length = acc.length) :
    ∀ (L : List α) (i : List β), (L.foldl f i).length = i.length := by
  intro L
  induction L with
  | nil => intro i; rfl
  | cons a L ih => intro i; rw [List.foldl_cons, ih, hf]

/-- Each packed row has exactly `bpl` bytes. -/
theorem packRow_length (mono : List Bool) (w y bpl : Nat) :
    (packRow mono w y bpl).length = bpl := by
  unfold packRow
  rw [foldl_length_const]
  · simp
  · intro acc x
    split
    · simp
    · rfl

/-- Length of a flat map whose rows all have length `k`. -/
theorem flatMap_const_length {α : Type} (L : List α) (f : α → List Nat) (k : Nat)
    (hf : ∀ a ∈ L, (f a).length = k) :
    (L.flatMap f).length = L.length * k := by
  induction L with
  | nil => simp
  | cons a L ih =>
    rw [List.flatMap_cons, List.length_append, hf a (List.mem_cons_self _ _),
      ih fun b hb => hf b (List.mem_cons_of_mem _ hb)]
    simp [List.length_cons]
    ring

/-- The packed raster command is 8 header bytes plus `⌈w/8⌉` bytes per line
for `h` lines, whatever the mono bitmap contains. -/
theorem pack_raster_length (mono : List Bool) (w h : Nat) :
    (pack_raster mono w h).length = 8 + (w + 7) / 8 * h := by
  unfold pack_raster commands.raster_image
  rw [List.length_append,
    flatMap_const_length (List.range h) _ ((w + 7) / 8)
      fun y _ => packRow_length mono w y _]
  simp [List.length_range]
  ring

/-- Final dimensions of `to_grayscale_resized`: unchanged when
`width ≤ max_width_px`, otherwise `max_width_px` wide and
`max (height * max_width_px / width) 1` tall (truncating division). -/
theorem to_grayscale_resized_dims (rgba : List Nat)
    (width height max_width_px : Nat) :
    (to_grayscale_resized rgba width height max_width_px).2
      = if width ≤ max_width_px then (width, height)
        else (max_width_px, max (height * max_width_px / width) 1) := by
  unfold to_grayscale_resized
  split <;> rfl

/-- C2 (amended): for every RGBA buffer of length `width × height × 4`,
`dither_rgba` (either method) returns exactly
`8 + ⌈W'/8⌉ × H'` bytes, where `W' = width`, `H' = height` when
`width ≤ max_width_px`, and otherwise `W' = max_width_px` and
`H' = max (⌊height × max_width_px / width⌋) 1` — the height uses
truncating (floor) division, not rounding to nearest. -/
theorem c2_dither_output_length (rgba : List Nat)
    (width height max_width_px : Nat) (method : DitherMethod)
    (hlen : rgba.length = width * height * 4) :
    ∃ out, dither_rgba rgba width height max_width_px method = some out ∧
      out.length
        = 8 + ((if width ≤ max_width_px then width else max_width_px) + 7) / 8
            * (if width ≤ max_width_px then height
               else max (height * max_width_px / width) 1) := by
  have hd := to_grayscale_resized_dims rgba width height max_width_px
  simp only [dither_rgba, if_pos hlen]
  refine ⟨_, rfl, ?_⟩
  rw [pack_raster_length]
  by_cases hw : width ≤ max_width_px
  · rw [if_pos hw] at hd
    rw [show (to_grayscale_resized rgba width height max_width_px).2.1 = width
        from by rw [hd],
      show (to_grayscale_resized rgba width height max_width_px).2.2 = height
        from by rw [hd],
      if_pos hw, if_pos hw]
  · rw [if_neg hw] at hd
    rw [show (to_grayscale_resized rgba width height max_width_px).2.1
          = max_width_px from by rw [hd],
      show (to_grayscale_resized rgba width height max_width_px).2.2
          = max (height * max_width_px / width) 1 from by rw [hd],
      if_neg hw, if_neg hw]

/-- Witness for C2 (amended) at a 2×2 opaque-black image under the 384-pixel
limit. -/
theorem c2_dither_output_length_witness :
    ∃ out, dither_rgba (List.replicate 16 0) 2 2 384 DitherMethod.Threshold
        = some out ∧
      out.length
        = 8 + ((if 2 ≤ 384 then 2 else 384) + 7) / 8
            * (if 2 ≤ 384 then 2 else max (2 * 384 / 2) 1) :=
  c2_dither_output_length (List.replicate 16 0) 2 2 384 DitherMethod.Threshold
    (by simp)

/-- C2 as stated is false: a 4×3 buffer downscaled to max width 2 yields
`⌊3·2/4⌋ = 1` raster line (9 bytes total), while the claim's
`round(3·2/4) = 2` predicts 10 bytes. -/
theorem c2_counterexample :
    (∃ out, dither_rgba (List.replicate 48 0) 4 3 2 DitherMethod.Threshold
        = some out ∧ out.length = 9) ∧
    (9 : Nat) ≠ 8 + (2 + 7) / 8 * (max 1 (round ((3 * 2 : ℚ) / 4))).toNat := by
  constructor
  · have hlen : (List.replicate 48 (0 : Nat)).length = 4 * 3 * 4 := by simp
    have hd := to_grayscale_resized_dims (List.replicate 48 0) 4 3 2
    rw [if_neg (by norm_num)] at hd
    simp only [dither_rgba, if_pos hlen]
    refine ⟨_, rfl, ?_⟩
    rw [pack_raster_length,
      show (to_grayscale_resized (List.replicate 48 0) 4 3 2).2.1 = 2
        from by rw [hd],
      show (to_grayscale_resized (List.replicate 48 0) 4 3 2).2.2
          = max (3 * 2 / 4) 1 from by rw [hd]]
    decide
  · have h : round ((3 * 2 : ℚ) / 4) = 2 := by
      have hcast : (3 * 2 : ℚ) / 4 + 1 / 2 = ((2 : ℤ) : ℚ) := by norm_num
      rw [round_eq, hcast, Int.floor_intCast]
    rw [h]
    decide

end Thermoprint
